import Mathlib

/-!
Verification development for the buildkit-cli-for-kubectl repository.

Shallow embedding of the pod chooser, the in-cluster proxy (Solve / DiffCopy
hijack, session map, peer-replication Listen/StopListen/Load), the builder
lifecycle driver (runtime flip, jittered retry sleeps), solve-option
construction, and the registry-secret credential decoder, together with
theorems settling the spec claims about them.
-/

set_option maxRecDepth 4000

namespace GoPrim

/-- Go strconv.ParseBool: accepts exactly these twelve strings, errors otherwise. -/
def parseBool (s : String) : Option Bool :=
  if s = "1" ∨ s = "t" ∨ s = "T" ∨ s = "TRUE" ∨ s = "true" ∨ s = "True" then some true
  else if s = "0" ∨ s = "f" ∨ s = "F" ∨ s = "FALSE" ∨ s = "false" ∨ s = "False" then some false
  else none

/-- Go `b, _ := strconv.ParseBool(s)`: the error is dropped and `b` is false on parse failure. -/
def parseBoolLax (s : String) : Bool := (parseBool s).getD false

/-- Lookup in a Go `map[string]string` modelled as an association list:
a missing key yields the zero value `""`. -/
def mapGet (m : List (String × String)) (k : String) : String :=
  match m.find? (fun kv => kv.1 == k) with
  | some kv => kv.2
  | none => ""

/-- Whether a Go map (association list) contains a key (`_, ok := m[k]`). -/
def mapHas (m : List (String × String)) (k : String) : Bool :=
  (m.find? (fun kv => kv.1 == k)).isSome

/-- Set a key in a Go map modelled as an association list (`m[k] = v`). -/
def mapSet (m : List (String × String)) (k v : String) : List (String × String) :=
  if mapHas m k then m.map (fun kv => if kv.1 == k then (k, v) else kv) else m ++ [(k, v)]

/-- Substring search over char lists: Go strings.Contains. -/
def listContainsSub (needle : List Char) : List Char → Bool
  | [] => needle.isEmpty
  | c :: rest => (needle.isPrefixOf (c :: rest)) || listContainsSub needle rest

/-- Go strings.Contains. -/
def strContains (hay needle : String) : Bool :=
  listContainsSub needle.toList hay.toList

end GoPrim

namespace Podchooser

/-- A buildkit worker as reported by `ListWorkers`, keeping only the field the
pod chooser reads.  Platforms are kept in their `platforms.Format` string form. -/
structure Worker where
  platforms : List String
deriving Repr, DecidableEq

/-- A builder pod, keeping the fields read by `ListRunningPods` / `filterPods`.
`workers` stands for the result of `GetWorkersForPod` for this pod. -/
structure Pod where
  name : String
  phase : String
  workers : List Worker
deriving Repr, DecidableEq

/-- Outcome of a Go call: a value, a returned error, or a runtime panic. -/
inductive GoResult (α : Type) where
  | ok (val : α)
  | err (msg : String)
  | panicked
deriving Repr, DecidableEq

/-- One step of the name sort performed by `ListRunningPods` (sort.Slice by Name). -/
def insertPod (p : Pod) : List Pod → List Pod
  | [] => [p]
  | q :: rest => if p.name ≤ q.name then p :: q :: rest else q :: insertPod p rest

/-- `ListRunningPods`: keep pods in the Running phase, sorted by name. -/
def listRunningPods (pods : List Pod) : List Pod :=
  ((pods.filter (fun p => p.phase == "Running")).foldr insertPod [])

/-- The matched-flag loop of `filterPods`, verbatim from the source: `matched`
starts false, the inner loop over the worker platforms may set it to true, and
the outer loop breaks early only while it is still false.  `fmt` stands for
`platforms.Format`. -/
def matchLoop (fmt : String → String) (wplats : List String) :
    List String → Bool → Bool
  | [], matched => matched
  | p :: rest, matched =>
    let matched2 := matched || wplats.any (fun cmp => fmt p == fmt cmp)
    if matched2 then matchLoop fmt wplats rest matched2 else false

/-- The per-pod loop of `filterPods`: a pod with exactly one worker is kept
according to `matchLoop`; any other worker count returns the multi-worker
error. -/
def filterPodsLoop (fmt : String → String) (platformList : List String) :
    List Pod → Except String (List Pod)
  | [] => .ok []
  | pod :: rest =>
    match pod.workers with
    | [w] =>
      match filterPodsLoop fmt platformList rest with
      | .error e => .error e
      | .ok tail =>
        if matchLoop fmt w.platforms platformList false then .ok (pod :: tail) else .ok tail
    | _ => .error "Multi-worker scenario not yet implemented"

/-- `filterPods`: an empty platform list keeps every pod; otherwise run the
per-pod loop. -/
def filterPods (fmt : String → String) (pods : List Pod) (platformList : List String) :
    Except String (List Pod) :=
  if platformList.isEmpty then .ok pods else filterPodsLoop fmt platformList pods

/-- `RandomPodChooser.ChoosePod`.  `randInt` stands for `rnd.Int()`.  The Go
source computes `rnd.Int() % len(pods)` after filtering without re-checking
emptiness; `%` by zero is a Go runtime panic, modelled by `GoResult.panicked`. -/
def randomChoosePod (fmt : String → String) (randInt : Nat) (pods : List Pod)
    (platformList : List String) : GoResult Pod :=
  let running := listRunningPods pods
  if running.length = 0 then .err "no builder pods are running"
  else
    match filterPods fmt running platformList with
    | .error e => .err e
    | .ok filtered =>
      if h : filtered.length = 0 then .panicked
      else .ok (filtered.get ⟨randInt % filtered.length,
        Nat.mod_lt _ (Nat.pos_of_ne_zero h)⟩)

/-- `StickyPodChooser.ChoosePod`.  `getNode` stands for `hashring.GetNode`
(returns none exactly on an empty ring); on a ring miss the source falls back
to a fresh `RandomPodChooser`.  A `getNode` result that is not one of the pod
names would make `podMap[chosen]` a nil pointer in Go; that unreachable case is
modelled as a panic (the caller dereferences the pod). -/
def stickyChoosePod (fmt : String → String)
    (getNode : List String → String → Option String) (key : String) (randInt : Nat)
    (pods : List Pod) (platformList : List String) : GoResult Pod :=
  let running := listRunningPods pods
  match filterPods fmt running platformList with
  | .error e => .err e
  | .ok filtered =>
    let podNames := filtered.map Pod.name
    match getNode podNames key with
    | some chosen =>
      match filtered.find? (fun p => p.name == chosen) with
      | some p => .ok p
      | none => .panicked
    | none => randomChoosePod fmt randInt pods platformList

/-- Concrete pod used in counterexamples: one running pod whose single worker
only reports linux/arm64. -/
def podArm : Pod :=
  { name := "builder-abc", phase := "Running", workers := [{ platforms := ["linux/arm64"] }] }

end Podchooser

namespace Proxy

/-- Per-session state kept by the daemon-side proxy: the exporter attributes
recorded by the `Solve` interceptor (the `fileSendProxy` reference is not
needed for these claims). -/
structure SessionProxies where
  exporterAttrs : List (String × String)
deriving Repr, DecidableEq

/-- The daemon-side session map (`server.sessions`), an association list keyed
by session ID. -/
abbrev Sessions := List (String × SessionProxies)

/-- Read access to the session map (`s.sessions[sessionID]`). -/
def sessionsLookup (m : Sessions) (id : String) : Option SessionProxies :=
  (m.find? (fun kv => kv.1 == id)).map (fun kv => kv.2)

/-- `server.getSession`: return the entry for the ID, creating an empty one if
absent.  Returns the updated map and the entry. -/
def getSession (m : Sessions) (id : String) : Sessions × SessionProxies :=
  match m.find? (fun kv => kv.1 == id) with
  | some kv => (m, kv.2)
  | none => (m ++ [(id, ⟨[]⟩)], ⟨[]⟩)

/-- Write the exporter attributes of the entry for `id` (pointer mutation in
the source: every entry with this key is the same object). -/
def setSessionAttrs (m : Sessions) (id : String) (attrs : List (String × String)) : Sessions :=
  m.map (fun kv => if kv.1 == id then (kv.1, ⟨attrs⟩) else kv)

/-- The fields of a buildkit `SolveRequest` read by the proxy's interceptor. -/
structure SolveRequest where
  exporter : String
  exporterAttrs : List (String × String)
  session : String
deriving Repr, DecidableEq

/-- The condition under which `server.Solve` calls `addLocalExporter`: the
request declares an image/docker/oci exporter and has non-empty exporter
attributes.  (The source's outer `len(req.Exporter) > 0` test is implied by
membership in the set.) -/
def solveHijackCond (req : SolveRequest) : Bool :=
  (req.exporter == "image" || req.exporter == "docker" || req.exporter == "oci")
    && !req.exporterAttrs.isEmpty

/-- `server.addLocalExporter`: look up (creating if necessary) the session
entry and record the request's exporter attributes in it. -/
def addLocalExporter (m : Sessions) (req : SolveRequest) : Sessions :=
  setSessionAttrs (getSession m req.session).1 req.session req.exporterAttrs

/-- The session-map effect of `server.Solve`: record exporter attributes
exactly under `solveHijackCond`, otherwise pass through untouched. -/
def solveStep (m : Sessions) (req : SolveRequest) : Sessions :=
  if solveHijackCond req then addLocalExporter m req else m

/-- `server.HijackRequired`: look up (creating if necessary) the session entry
and report whether its exporter attributes are non-empty. -/
def hijackRequired (m : Sessions) (id : String) : Sessions × Bool :=
  let p := getSession m id
  (p.1, !p.2.exporterAttrs.isEmpty)

/-- What `fileSendProxy.DiffCopy` does with the stream. -/
inductive DiffCopyAction where
  | imageLoad
  | pipeToClient
deriving Repr, DecidableEq

/-- The exporter-metadata marker (`keyExporterMetaPrefix`). -/
def keyExporterMetaPrefix : String := "exporter-md-"

/-- The routing decision of `fileSendProxy.DiffCopy`: collect inbound metadata
keys carrying the exporter-metadata prefix; if any are present *and*
`HijackRequired` holds for the proxy's session ID, pipe the payload into the
local image-load routine, else pipe through to the client.  The `&&`
short-circuits in the source, so `HijackRequired` (which can create a map
entry) only runs when a prefixed key exists. -/
def diffCopy (mdKeys : List String) (m : Sessions) (id : String) :
    Sessions × DiffCopyAction :=
  let exporterMetadata := mdKeys.filter (fun k => keyExporterMetaPrefix.isPrefixOf k)
  if exporterMetadata.isEmpty then (m, .pipeToClient)
  else
    let p := hijackRequired m id
    if p.2 then (p.1, .imageLoad) else (p.1, .pipeToClient)

/-- Events touching the session map, for the lifecycle claim: a `Solve`
interception; the start of a `Session` RPC (its initial `getSession` call); a
`Session` RPC returning through one of its four setup error paths after that
call (failed buildkitd `Session` dial, `session.NewManager`,
`outgoingManager.Get`, or `session.NewSession`), none of which touches the
map - the `delete(s.sessions, sessionID)` in `server.Session` is not
deferred and runs only on the final path after `g.Wait()`; that final return;
and a `HijackRequired` lookup from a file-send stream. -/
inductive ProxyEvent where
  | solve (req : SolveRequest)
  | sessionStart (id : String)
  | sessionAbort (id : String)
  | sessionReturn (id : String)
  | hijackCheck (id : String)
deriving Repr, DecidableEq

/-- Daemon state for the lifecycle claim: the session map plus the set of
session IDs whose `Session` RPC is in flight. -/
structure ProxyState where
  sessions : Sessions
  inFlight : List String
deriving Repr, DecidableEq

/-- One event step.  `sessionStart` performs the RPC's initial `getSession`;
`sessionAbort` is a setup-error return of the RPC, which leaves the map
untouched; `sessionReturn` is the return on the final path, which runs
`delete(s.sessions, sessionID)`. -/
def stepEvent (st : ProxyState) : ProxyEvent → ProxyState
  | .solve req => { st with sessions := solveStep st.sessions req }
  | .sessionStart id =>
      { sessions := (getSession st.sessions id).1, inFlight := id :: st.inFlight }
  | .sessionAbort id => { st with inFlight := st.inFlight.erase id }
  | .sessionReturn id =>
      { sessions := st.sessions.filter (fun kv => !(kv.1 == id)),
        inFlight := st.inFlight.erase id }
  | .hijackCheck id => { st with sessions := (getSession st.sessions id).1 }

/-- Run a trace of events from a state. -/
def runTrace (st : ProxyState) (tr : List ProxyEvent) : ProxyState :=
  tr.foldl stepEvent st

/-- The empty daemon state (`sessions: map[string]*sessionProxies{}`). -/
def initState : ProxyState := ⟨[], []⟩

/-- Whether an event creates (or guarantees) a map entry for `id`. -/
def createsEntry (id : String) : ProxyEvent → Bool
  | .solve req => req.session == id && solveHijackCond req
  | .sessionStart i => i == id
  | .sessionAbort _ => false
  | .sessionReturn _ => false
  | .hijackCheck i => i == id

/-- Whether an event removes the map entry for `id`: only the delete on the
final path of `server.Session`; setup-error returns remove nothing. -/
def removesEntry (id : String) : ProxyEvent → Bool
  | .sessionReturn i => i == id
  | _ => false

/-- Specification of map membership over a trace: an entry exists iff an
entry-creating event for the ID has occurred since the last completed
`Session` return for the ID (setup-error returns do not delete). -/
def specHasEntry (id : String) (tr : List ProxyEvent) : Bool :=
  tr.foldl (fun b ev => if removesEntry id ev then false else b || createsEntry id ev) false

/-- A peer builder pod in the replication roster. -/
structure RemoteNode where
  addr : String
  key : String
deriving Repr, DecidableEq

/-- The replication-side state of the proxy server: rotating listen key,
listener reference count, whether the TCP gRPC server is up, and the roster. -/
structure ReplicationState where
  listenKey : String
  listenRefCount : Nat
  listening : Bool
  remotes : List RemoteNode
deriving Repr, DecidableEq

/-- `server.Listen`.  `lisOk` stands for `net.Listen` succeeding.  The TCP
gRPC server is started only in the zero-refcount branch; the refcount is then
incremented and the node's listen key returned.  On `net.Listen` failure
nothing is mutated. -/
def listen (lisOk : Bool) (st : ReplicationState) :
    ReplicationState × Except String String :=
  if st.listenRefCount = 0 then
    if lisOk then
      ({ st with listening := true, listenRefCount := st.listenRefCount + 1 }, .ok st.listenKey)
    else (st, .error "failed to start gRPC listener on port")
  else ({ st with listenRefCount := st.listenRefCount + 1 }, .ok st.listenKey)

/-- `server.StopListen`: zero refcount is an internal error (state untouched);
otherwise decrement, stopping the gRPC server exactly when the count reaches
zero. -/
def stopListen (st : ReplicationState) : ReplicationState × Option String :=
  if st.listenRefCount = 0 then (st, some "internal error - zero refcount on StopListen")
  else
    let c := st.listenRefCount - 1
    if c = 0 then ({ st with listenRefCount := c, listening := false }, none)
    else ({ st with listenRefCount := c }, none)

/-- Which local runtime the proxy loads images into (the fields of
`ServerConfig` that `ImageLoad`/`Load` read). -/
structure ServerConfig where
  containerdSocketPath : String
  dockerdSocketPath : String
deriving Repr, DecidableEq

/-- The local image-load routine chosen by the configured runtime socket:
`containerdLoad` when a containerd socket path is configured, else
`dockerdLoad`. -/
inductive LoadTarget where
  | containerd
  | dockerd
deriving Repr, DecidableEq

/-- Runtime selection in `ImageLoad` / `Load`: `s.cfg.ContainerdSocketPath != ""`. -/
def runtimeTarget (cfg : ServerConfig) : LoadTarget :=
  if cfg.containerdSocketPath ≠ "" then .containerd else .dockerd

/-- Outcome of the peer-replication `Load` streaming RPC. -/
inductive LoadOutcome where
  | rejected (msg : String)
  | loaded (target : LoadTarget) (data : List Nat)
deriving Repr, DecidableEq

/-- `server.Load`: `md.Get("key")` must yield exactly one value and it must
equal this node's listen key; only then are the received bytes piped into the
local image-load routine.  `mdKeyVals` is the list of values of the `key`
metadata header; `data` the received bytes. -/
def loadRPC (cfg : ServerConfig) (listenKey : String) (mdKeyVals : List String)
    (data : List Nat) : LoadOutcome :=
  match mdKeyVals with
  | [k] =>
    if k ≠ listenKey then .rejected "invalid key sent from remote"
    else .loaded (runtimeTarget cfg) data
  | _ => .rejected "valid key must be specified in request metadata"

end Proxy

namespace KubeDriver

/-- `DefaultContainerRuntime` ("Temporary since most kubernetes clusters are
still Docker based today..."). -/
def DefaultContainerRuntime : String := "docker"

/-- The driver options read by `initDriverFromConfig` that the claims touch.
Go's `DriverOpts` is a `map[string]string`, so each key appears at most once;
the remaining recognized keys (image, proxy-image, namespace, replicas,
loadbalance, containerd-namespace, containerd-sock, docker-sock,
custom-config, env) only affect state the claims do not mention, and unknown
keys are rejected at driver creation, so neither can occur in a state reached
by a successfully created driver that these claims quantify over. -/
structure DriverOpts where
  runtime : Option String
  worker : Option String
  rootless : Option String
deriving Repr, DecidableEq

/-- The fields of `manifest.DeploymentOpt` that `initDriverFromConfig`
computes and the claims read. -/
structure DeploymentOpt where
  containerRuntime : String
  worker : String
  rootless : Bool
deriving Repr, DecidableEq

/-- `Driver.initDriverFromConfig` (the variant that accepts the "auto" worker
and runtime values): validate the driver options, derive the container
runtime, worker and rootless flag, and report whether the runtime was
user-pinned (`userSpecifiedRuntime`).  Option processing order is
insignificant: Go map iteration order is unspecified and the cases are
independent. -/
def initDriverFromConfig (opts : DriverOpts) : Except String (DeploymentOpt × Bool) :=
  match (match opts.worker with
         | none => Except.ok ""
         | some v =>
           if v = "auto" ∨ v = "containerd" ∨ v = "runc" then Except.ok v
           else Except.error ("invalid worker \"" ++ v ++ "\"")) with
  | .error m => .error m
  | .ok worker0 =>
    match (match opts.runtime with
           | none => Except.ok (DefaultContainerRuntime, false)
           | some v =>
             if v = "auto" then Except.ok (v, false)
             else if v = "docker" ∨ v = "containerd" then Except.ok (v, true)
             else Except.error ("invalid runtime \"" ++ v ++ "\"")) with
    | .error m => .error m
    | .ok rt =>
      match (match opts.rootless with
             | none => Except.ok false
             | some v =>
               match GoPrim.parseBool v with
               | some b => Except.ok b
               | none => Except.error ("invalid rootless value \"" ++ v ++ "\"")) with
      | .error m => .error m
      | .ok rootless =>
        let runtime := if rt.1 = "auto" then DefaultContainerRuntime else rt.1
        let worker1 :=
          if runtime = "containerd" ∧ worker0 = "auto" then "containerd"
          else if runtime = "docker" ∧ worker0 = "auto" then "runc"
          else worker0
        if rootless ∧ worker1 = "containerd" then
          .error "containerd worker does not support rootless mode - use 'runc' worker"
        else .ok ({ containerRuntime := runtime, worker := worker1, rootless := rootless }, rt.2)

/-- Whether the rootless driver option is absent or explicitly false.  A
mount failure of the runtime socket cannot occur in rootless mode (the socket
is not mounted there), so states reached with a rootless builder never enter
the flip path. -/
def rootlessOk (o : DriverOpts) : Bool :=
  match o.rootless with
  | none => true
  | some v => GoPrim.parseBool v == some false

/-- The driver state read and written by the mount-failure handler in
`createBuilder`. -/
structure DriverState where
  driverOpts : DriverOpts
  userSpecifiedRuntime : Bool
deriving Repr, DecidableEq

/-- A pod event as consumed by the `createBuilder` event callback. -/
structure PodEvent where
  reason : String
  message : String
deriving Repr, DecidableEq

/-- The trigger of the runtime-flip path: a FailedMount event whose message
contains "is not a socket file". -/
def isMountFailure (ev : PodEvent) : Bool :=
  ev.reason == "FailedMount" && GoPrim.strContains ev.message "is not a socket file"

/-- The runtime flip in `createBuilder`: containerd becomes docker, docker
becomes containerd; anything else is the NOTREACHED branch. -/
def flipRuntime (attempted : String) : Except String String :=
  match attempted with
  | "containerd" => .ok "docker"
  | "docker" => .ok "containerd"
  | _ => .error ("unexpected runtime: " ++ attempted)

/-- The corrective actions the flip path performs besides re-initialization. -/
structure FlipActions where
  updateResourceVersion : String
  replicaSetDeleteGraceZero : Bool
  podsForceDeletedGraceZero : Bool
deriving Repr, DecidableEq

/-- Result of the mount-failure branch of `createBuilder`'s pod-event
callback. -/
inductive MountFixOutcome where
  | fatal (msg : String)
  | flipped (newState : DriverState) (newRuntime : String) (acts : FlipActions)
  | noAction
deriving Repr, DecidableEq

/-- The pod-event callback of `createBuilder` (the lines handling
`FailedMount`/"is not a socket file").  If the runtime was user-pinned the
error is surfaced; otherwise the runtime is flipped away from
`DefaultContainerRuntime`, the worker selection reset to "auto",
`initDriverFromConfig` re-run (which pins the runtime, preventing cycles), the
deployment updated with the previously observed resource version, the stale
replica set deleted with zero grace period and the affected pods
force-deleted, and the wait loop continues.  `deplResourceVersion` is the
resource version of the deployment as last fetched. -/
def handlePodEvent (st : DriverState) (deplResourceVersion : String) (ev : PodEvent) :
    MountFixOutcome :=
  if isMountFailure ev then
    if st.userSpecifiedRuntime then
      .fatal ("pod failed to initialize - did you pick the correct runtime? - " ++ ev.message)
    else
      match flipRuntime DefaultContainerRuntime with
      | .error m => .fatal m
      | .ok newRuntime =>
        let opts2 := { st.driverOpts with runtime := some newRuntime, worker := some "auto" }
        match initDriverFromConfig opts2 with
        | .error m => .fatal m
        | .ok p =>
          .flipped { driverOpts := opts2, userSpecifiedRuntime := p.2 } newRuntime
            { updateResourceVersion := deplResourceVersion,
              replicaSetDeleteGraceZero := true,
              podsForceDeletedGraceZero := true }
  else .noAction

/-- `driver.RandSleep(maxMS)`: sleeps `draw` milliseconds where `draw` is a
uniform random value in [0, maxMS); if obtaining randomness fails it sleeps
exactly `maxMS` milliseconds.  `some d` is a successful draw, `none` the
failure path. -/
def RandSleepDuration (maxMS : Nat) (draw : Option Nat) : Nat :=
  match draw with
  | some d => d
  | none => maxMS

/-- The `maxMS` argument used by every configuration-object and workload
create/update retry in `createConfigMap` / `createBuilder`. -/
def lifecycleRetrySleepMaxMS : Nat := 1000

end KubeDriver

namespace Build

/-- A `client.ExportEntry` as read by `toSolveOpt`: the exporter type, its
attribute map, and whether an output writer is already attached
(`e.Output != nil`). -/
structure ExportEntry where
  typ : String
  attrs : List (String × String)
  hasOutput : Bool
deriving Repr, DecidableEq

/-- A cache descriptor (`client.CacheOptionsEntry`), keeping the type. -/
structure CacheEntry where
  typ : String
deriving Repr, DecidableEq

/-- The fields of `build.Options` that `toSolveOpt`'s validation reads. -/
structure Options where
  tags : List String
  buildArgs : List (String × String)
  imageIDFile : String
  platforms : List String
  exports : List ExportEntry
  cacheTo : List CacheEntry
deriving Repr, DecidableEq

/-- The driver feature set (`d.Features()`). -/
structure Features where
  ociExporter : Bool
  dockerExporter : Bool
  containerdExporter : Bool
  cacheExport : Bool
  multiPlatform : Bool
deriving Repr, DecidableEq

/-- `notSupported` error text for a feature, for the kubernetes driver. -/
def notSupported (f : String) : String :=
  f ++ " feature is currently not supported for kubernetes driver. Please switch to a different driver (eg. \"kubectl buildkit create --use\")"

/-- The "runtime" exporter rewrite: runtime becomes image or docker according
to driver features, else a clean error. -/
def rewriteRuntimeExport (feat : Features) (e : ExportEntry) : Except String ExportEntry :=
  if e.typ == "runtime" then
    if feat.containerdExporter then .ok { e with typ := "image" }
    else if feat.dockerExporter then .ok { e with typ := "docker" }
    else .error "loading image into cluster runtime not supported by this builder, please specify --push or a client local output: --output=type=local,dest=. --output=type=tar,dest=out.tar "
  else .ok e

/-- Parse every tag with `reference.Parse` (modelled by the `parseTag`
parameter), failing on the first invalid one. -/
def parseTags (parseTag : String → Option String) : List String → Except String (List String)
  | [] => .ok []
  | t :: rest =>
    match parseTag t with
    | none => .error ("invalid tag \"" ++ t ++ "\"")
    | some r =>
      match parseTags parseTag rest with
      | .error m => .error m
      | .ok rs => .ok (r :: rs)

/-- Tag handling of `toSolveOpt`: with tags, parse them and write the joined
list into the name attribute of image/oci/docker exports; without tags, reject
an image export that asks to push. -/
def fillTagNames (parseTag : String → Option String) (tags : List String) (e : ExportEntry) :
    Except String ExportEntry :=
  match tags with
  | [] =>
    if e.typ == "image" ∧ GoPrim.mapGet e.attrs "name" = "" ∧ GoPrim.mapGet e.attrs "push" ≠ ""
    then
      if GoPrim.parseBoolLax (GoPrim.mapGet e.attrs "push") then
        .error "tag is needed when pushing to registry"
      else .ok e
    else .ok e
  | _ :: _ =>
    match parseTags parseTag tags with
    | .error m => .error m
    | .ok rs =>
      if e.typ == "image" ∨ e.typ == "oci" ∨ e.typ == "docker" then
        .ok { e with attrs := GoPrim.mapSet e.attrs "name" (String.intercalate "," rs) }
      else .ok e

/-- The docker-exporter wiring in the set-up-exporters loop: requires the
docker-exporter feature and, when no output writer is attached yet, installs
the docker-load writer (`dlOk` stands for the `dl` callback succeeding). -/
def dockerWire (feat : Features) (dlOk : Bool) (e : ExportEntry) : Except String ExportEntry :=
  if e.typ == "docker" then
    if !feat.dockerExporter then .error (notSupported "Docker exporter")
    else if !e.hasOutput then
      if dlOk then .ok { e with hasOutput := true }
      else .error "docker load callback failed"
    else .ok e
  else .ok e

/-- The multi-node test in the image-without-push branch: more than one
builder, or a single builder with more than one node.  `builders` is the node
count of each builder returned by `d.List`. -/
def multiNode (builders : List Nat) : Bool :=
  match builders with
  | [n] => decide (1 < n)
  | _ :: _ :: _ => true
  | [] => false

/-- The set-up-exporters loop of `toSolveOpt` for the (single) export:
image-ID-file/local/tar incompatibility, feature checks, docker-load wiring,
and the oci rewrite for a multi-node image export without push. -/
def setupExporter (feat : Features) (buildersRes : Except String (List Nat)) (dlOk : Bool)
    (imageIDFile : String) (e : ExportEntry) : Except String ExportEntry :=
  let pushing := GoPrim.mapHas e.attrs "push" && GoPrim.parseBoolLax (GoPrim.mapGet e.attrs "push")
  if (e.typ == "local" ∨ e.typ == "tar") ∧ imageIDFile ≠ "" then
    .error "local and tar exporters are incompatible with image ID file"
  else if e.typ == "oci" ∧ !feat.ociExporter then .error (notSupported "OCI exporter")
  else
    match dockerWire feat dlOk e with
    | .error m => .error m
    | .ok e1 =>
      if e1.typ == "containerd" then .error (notSupported "Containerd exporter")
      else if e1.typ == "image" ∧ !pushing then
        if !feat.containerdExporter then .error (notSupported "Containerd exporter")
        else
          match buildersRes with
          | .error m => .error m
          | .ok builders =>
            if !e1.hasOutput ∧ multiNode builders then
              if dlOk then .ok { e1 with typ := "oci", hasOutput := true }
              else .error "docker load callback failed"
            else .ok e1
      else .ok e1

/-- The cache-to list after the `BUILDKIT_INLINE_CACHE` build-arg promotion
(`if v, ok := opt.BuildArgs[...]; ok` with a parse of `v`: a missing key reads
as `""`, which parses to false, so the `ok` test is subsumed). -/
def effectiveCacheTo (opt : Options) : List CacheEntry :=
  if GoPrim.parseBoolLax (GoPrim.mapGet opt.buildArgs "BUILDKIT_INLINE_CACHE") then
    opt.cacheTo ++ [{ typ := "inline" }]
  else opt.cacheTo

/-- `toSolveOpt`'s validation and exporter-configuration pipeline.  The
output-count check guarantees exactly one export from the count check onward,
so the source's loops over `opt.Exports` are instantiated on that single
entry.  The removal of a stale image-ID file, input staging (`LoadInputs`),
network-mode and extra-host handling are downstream of everything these claims
state and are elided (treated as accepting). -/
def toSolveOpt (feat : Features) (parseTag : String → Option String)
    (buildersRes : Except String (List Nat)) (dlOk : Bool) (multiDriver : Bool)
    (opt : Options) : Except String ExportEntry :=
  if opt.imageIDFile ≠ "" ∧ (multiDriver ∨ opt.platforms ≠ []) then
    .error "image ID file cannot be specified when building for multiple platforms"
  else
    if (effectiveCacheTo opt).any (fun c => c.typ != "inline" && !feat.cacheExport) then
      .error (notSupported "cache export")
    else
      match opt.exports with
      | [] => .error "zero outputs currently unsupported"
      | _ :: _ :: _ => .error "multiple outputs currently unsupported"
      | [e0] =>
        match rewriteRuntimeExport feat e0 with
        | .error m => .error m
        | .ok e1 =>
          match fillTagNames parseTag opt.tags e1 with
          | .error m => .error m
          | .ok e2 => setupExporter feat buildersRes dlOk opt.imageIDFile e2

end Build

namespace AuthProv

/-- Character of the standard base64 alphabet for a sextet. -/
def b64Char (n : Nat) : Char :=
  if n < 26 then Char.ofNat (65 + n)
  else if n < 52 then Char.ofNat (97 + (n - 26))
  else if n < 62 then Char.ofNat (48 + (n - 52))
  else if n = 62 then '+'
  else '/'

/-- Sextet of a standard base64 alphabet character, none for foreign
characters. -/
def b64Index (c : Char) : Option Nat :=
  if 65 ≤ c.toNat ∧ c.toNat ≤ 90 then some (c.toNat - 65)
  else if 97 ≤ c.toNat ∧ c.toNat ≤ 122 then some (c.toNat - 97 + 26)
  else if 48 ≤ c.toNat ∧ c.toNat ≤ 57 then some (c.toNat - 48 + 52)
  else if c = '+' then some 62
  else if c = '/' then some 63
  else none

/-- Standard (padded) base64 encoding of a byte list, three bytes per quad
(`base64.StdEncoding.EncodeToString`). -/
def b64Encode : List Nat → List Char
  | [] => []
  | [a] => [b64Char (a / 4), b64Char (a % 4 * 16), '=', '=']
  | [a, b] => [b64Char (a / 4), b64Char (a % 4 * 16 + b / 16), b64Char (b % 16 * 4), '=']
  | a :: b :: c :: rest =>
    b64Char (a / 4) :: b64Char (a % 4 * 16 + b / 16) :: b64Char (b % 16 * 4 + c / 64) ::
      b64Char (c % 64) :: b64Encode rest

/-- Standard (padded) base64 decoding (`base64.StdEncoding.Decode`),
producing the written bytes; malformed input is an error. -/
def b64Decode : List Char → Except String (List Nat)
  | [] => .ok []
  | c1 :: c2 :: c3 :: c4 :: rest =>
    match b64Index c1, b64Index c2 with
    | some s1, some s2 =>
      if c3 = '=' then
        if c4 = '=' ∧ rest = [] then .ok [s1 * 4 + s2 / 16]
        else .error "illegal base64 data"
      else
        match b64Index c3 with
        | some s3 =>
          if c4 = '=' then
            if rest = [] then .ok [s1 * 4 + s2 / 16, s2 % 16 * 16 + s3 / 4]
            else .error "illegal base64 data"
          else
            match b64Index c4 with
            | some s4 =>
              match b64Decode rest with
              | .error m => .error m
              | .ok tail =>
                .ok ((s1 * 4 + s2 / 16) :: (s2 % 16 * 16 + s3 / 4) :: (s3 % 4 * 64 + s4) :: tail)
            | none => .error "illegal base64 data"
        | none => .error "illegal base64 data"
    | _, _ => .error "illegal base64 data"
  | _ => .error "illegal base64 data"

/-- Strip trailing NUL bytes. -/
def trimTrailingNul (l : List Nat) : List Nat :=
  (l.reverse.dropWhile (fun x => x == 0)).reverse

/-- Go `strings.Trim(s, "\x00")`: strip leading and trailing NUL bytes. -/
def trimNulBoth (l : List Nat) : List Nat :=
  (trimTrailingNul l).dropWhile (fun x => x == 0)

/-- Go `strings.SplitN(s, ":", 2)` when it yields two parts: split at the
first colon (byte 58); none when there is no colon. -/
def splitOnceColon : List Nat → Option (List Nat × List Nat)
  | [] => none
  | x :: xs =>
    if x == 58 then some ([], xs)
    else
      match splitOnceColon xs with
      | some p => some (x :: p.1, p.2)
      | none => none

/-- `decodeAuth`: empty input yields empty credentials; otherwise allocate a
buffer of `base64.StdEncoding.DecodedLen(len) = len/4*3` bytes, decode into
it (the remainder of the buffer keeps its zero bytes - the source converts the
whole buffer, not the written prefix, to a string), split on the first colon,
and strip NUL bytes from the password with `strings.Trim`. -/
def decodeAuth (authStr : List Char) : Except String (List Nat × List Nat) :=
  if authStr.isEmpty then .ok ([], [])
  else
    match b64Decode authStr with
    | .error m => .error m
    | .ok decoded =>
      if authStr.length / 4 * 3 < decoded.length then
        .error "Something went wrong decoding auth config"
      else
        match splitOnceColon
            (decoded ++ List.replicate (authStr.length / 4 * 3 - decoded.length) 0) with
        | none => .error "Invalid auth configuration file"
        | some p => .ok (p.1, trimNulBoth p.2)

/-- The documented encoding of a registry `auth` field: base64 of
`username ":" password` (colon is byte 58). -/
def encodeDockerAuth (u p : List Nat) : List Char :=
  b64Encode (u ++ 58 :: p)

/-- A `creds` record of the registry secret store. -/
structure Creds where
  username : String
  password : String
  auth : String
  identityToken : String
deriving Repr, DecidableEq

/-- The condition under which `authProvider.Credentials` takes the
`decodeAuth` path for a found entry. -/
def decodePathTaken (c : Creds) : Bool :=
  (c.username == "" || c.password == "") && c.auth != ""

end AuthProv

namespace Podchooser

/-- C2: the claim says that whenever the eligible set is empty - no running pod,
or no running pod passing the platform filter - both ChoosePod strategies
return the error "no builder pods are running" and never panic.  The code only
checks emptiness before filtering: with one running pod that fails the platform
filter, `rnd.Int() % len(pods)` divides by zero and panics, in both strategies
(sticky falls back to random on the empty hash ring).  The zero-running-pods
case does return the error. -/
theorem choosePod_filtered_empty_panics :
    randomChoosePod id 0 [podArm] ["linux/amd64"] = GoResult.panicked ∧
    stickyChoosePod id (fun names _ => names.head?) "ctx-key" 0 [podArm] ["linux/amd64"]
      = GoResult.panicked ∧
    randomChoosePod id 0 ([] : List Pod) ["linux/amd64"]
      = GoResult.err "no builder pods are running" ∧
    stickyChoosePod id (fun names _ => names.head?) "ctx-key" 0 ([] : List Pod) ["linux/amd64"]
      = GoResult.err "no builder pods are running" := by
  refine ⟨rfl, rfl, rfl, rfl⟩

/-- C3: the claim says a pod passes the filter only if its worker's platform
set contains every requested platform.  The matched flag of `filterPods` is
never reset between requested platforms, so only the first requested platform
is actually checked: a pod whose single worker reports only linux/arm64 passes
the filter for the request [linux/arm64, linux/amd64]. -/
theorem filterPods_ignores_later_platforms :
    filterPods id [podArm] ["linux/arm64", "linux/amd64"] = Except.ok [podArm] ∧
    ¬ ("linux/amd64" ∈ (podArm.workers.map Worker.platforms).flatten) := by
  exact ⟨rfl, by decide⟩

end Podchooser

namespace Proxy

theorem find?_append_pair (p : String × SessionProxies → Bool)
    (l₁ l₂ : List (String × SessionProxies)) :
    (l₁ ++ l₂).find? p = ((l₁.find? p).orElse (fun _ => l₂.find? p)) := by
  induction l₁ with
  | nil => simp
  | cons kv rest ih =>
    by_cases h : p kv = true
    · simp [List.find?, h]
    · simp only [List.cons_append, List.find?, Bool.not_eq_true] at *
      simp [h, ih]

theorem isSome_lookup_getSession (m : Sessions) (i id : String) :
    (sessionsLookup (getSession m i).1 id).isSome
      = ((sessionsLookup m id).isSome || (i == id)) := by
  unfold getSession sessionsLookup
  cases h : m.find? (fun kv => kv.1 == i) with
  | some kv =>
    simp only [h]
    by_cases hid : i = id
    · subst hid
      simp [h]
    · simp [hid]
  | none =>
    simp only [h, find?_append_pair]
    by_cases hid : i = id
    · subst hid
      cases hfind : m.find? (fun kv => kv.1 == i) with
      | some kv' => exact absurd hfind (by simp [h])
      | none => simp [hfind, Option.orElse]
    · cases hfind : m.find? (fun kv => kv.1 == id) with
      | some kv' => simp [hfind, Option.orElse]
      | none => simp [hfind, Option.orElse, hid]

theorem lookup_setSessionAttrs (m : Sessions) (i id : String)
    (attrs : List (String × String)) :
    sessionsLookup (setSessionAttrs m i attrs) id
      = (sessionsLookup m id).map (fun sp => if i = id then ⟨attrs⟩ else sp) := by
  unfold setSessionAttrs sessionsLookup
  rw [List.find?_map]
  have hcomp : ((fun kv : String × SessionProxies => kv.1 == id) ∘
      (fun kv => if (kv.1 == i) = true then (kv.1, (⟨attrs⟩ : SessionProxies)) else kv))
      = (fun kv : String × SessionProxies => kv.1 == id) := by
    funext kv
    by_cases h : kv.1 = i <;> simp [h]
  rw [hcomp]
  cases hfind : m.find? (fun kv => kv.1 == id) with
  | none => simp
  | some kv =>
    have hk : kv.1 = id := by simpa using List.find?_some hfind
    by_cases hi : kv.1 = i
    · have hii : i = id := by rw [← hi, hk]
      simp [hi, hii]
    · have hne : ¬ i = id := fun h => hi (by rw [hk, h])
      simp [hi, hne]

theorem hijackRequired_snd (m : Sessions) (id : String) :
    (hijackRequired m id).2
      = !((sessionsLookup m id).getD ⟨[]⟩).exporterAttrs.isEmpty := by
  unfold hijackRequired getSession sessionsLookup
  cases h : m.find? (fun kv => kv.1 == id) <;> simp [h]

/-- C1: the DiffCopy stream is redirected into the local image-load routine
iff (a) some inbound metadata key carries the exporter-metadata prefix and
(b) the recorded session state for the stream's session ID has non-empty
exporter attributes; those attributes are recorded by the Solve interceptor
exactly when the request declares an image/docker/oci exporter with non-empty
attributes, and in every other case the stream is piped through to the
client. -/
theorem diffCopy_hijack_iff :
    (∀ (mdKeys : List String) (m : Sessions) (id : String),
      ((diffCopy mdKeys m id).2 = DiffCopyAction.imageLoad ↔
        (mdKeys.any (fun k => keyExporterMetaPrefix.isPrefixOf k) = true ∧
          ∃ sp, sessionsLookup m id = some sp ∧ sp.exporterAttrs ≠ [])) ∧
      ((diffCopy mdKeys m id).2 = DiffCopyAction.imageLoad ∨
        (diffCopy mdKeys m id).2 = DiffCopyAction.pipeToClient)) ∧
    (∀ (m : Sessions) (req : SolveRequest), solveHijackCond req = true →
      sessionsLookup (solveStep m req) req.session = some ⟨req.exporterAttrs⟩) ∧
    (∀ (m : Sessions) (req : SolveRequest), solveHijackCond req = false →
      solveStep m req = m) ∧
    (∀ req : SolveRequest, solveHijackCond req = true ↔
      ((req.exporter = "image" ∨ req.exporter = "docker" ∨ req.exporter = "oci") ∧
        req.exporterAttrs ≠ [])) := by
  refine ⟨?_, ?_, ?_, ?_⟩
  · intro mdKeys m id
    constructor
    · unfold diffCopy
      by_cases hemp :
          (mdKeys.filter (fun k => keyExporterMetaPrefix.isPrefixOf k)).isEmpty = true
      · simp only [hemp, if_pos]
        constructor
        · intro h
          exact absurd h (by simp)
        · rintro ⟨hany, _⟩
          rw [List.isEmpty_iff, List.filter_eq_nil_iff] at hemp
          rw [List.any_eq_true] at hany
          obtain ⟨k, hk, hpk⟩ := hany
          exact absurd hpk (by simpa using hemp k hk)
      · simp only [hemp, if_neg, Bool.not_eq_true]
        rw [Bool.not_eq_true] at hemp
        have hany : mdKeys.any (fun k => keyExporterMetaPrefix.isPrefixOf k) = true := by
          rw [List.any_eq_true]
          rcases hne : mdKeys.filter (fun k => keyExporterMetaPrefix.isPrefixOf k) with _ | ⟨k, rest⟩
          · rw [hne] at hemp
            simp at hemp
          · have hmem : k ∈ mdKeys.filter (fun k => keyExporterMetaPrefix.isPrefixOf k) := by
              rw [hne]; exact List.mem_cons_self _ _
            rw [List.mem_filter] at hmem
            exact ⟨k, hmem.1, hmem.2⟩
        rw [hijackRequired_snd]
        cases hl : sessionsLookup m id with
        | none =>
          simp [hl, hany]
        | some sp =>
          by_cases hsp : sp.exporterAttrs = []
          · simp [hl, hsp, hany]
          · simp [hl, hsp, hany, List.isEmpty_iff]
    · unfold diffCopy
      by_cases hemp :
          (mdKeys.filter (fun k => keyExporterMetaPrefix.isPrefixOf k)).isEmpty = true
      · simp [hemp]
      · simp only [hemp, if_neg, Bool.not_eq_true]
        by_cases hh : (hijackRequired m id).2 = true <;> simp [hh]
  · intro m req hc
    unfold solveStep addLocalExporter
    rw [if_pos hc, lookup_setSessionAttrs]
    have h1 : (sessionsLookup (getSession m req.session).1 req.session).isSome = true := by
      rw [isSome_lookup_getSession]
      simp
    cases hl : sessionsLookup (getSession m req.session).1 req.session with
    | none => rw [hl] at h1; simp at h1
    | some sp => simp
  · intro m req hc
    unfold solveStep
    rw [if_neg (by simp [hc])]
  · intro req
    unfold solveHijackCond
    constructor
    · intro h
      rw [Bool.and_eq_true] at h
      obtain ⟨h1, h2⟩ := h
      refine ⟨?_, by simpa using h2⟩
      rcases Bool.or_eq_true_iff.mp h1 with h3 | h3
      · rcases Bool.or_eq_true_iff.mp h3 with h4 | h4
        · exact Or.inl (by simpa using h4)
        · exact Or.inr (Or.inl (by simpa using h4))
      · exact Or.inr (Or.inr (by simpa using h3))
    · rintro ⟨h1, h2⟩
      have h2' : req.exporterAttrs.isEmpty = false := by
        simpa [List.isEmpty_iff] using h2
      rcases h1 with h | h | h <;> simp [h, h2']

/-- Witness for the C1 theorem: a Solve request with the image exporter and
one exporter attribute records that attribute in the session map. -/
theorem diffCopy_hijack_iff_witness :
    sessionsLookup (solveStep [] ⟨"image", [("name", "t1")], "s1"⟩) "s1"
      = some ⟨[("name", "t1")]⟩ :=
  diffCopy_hijack_iff.2.1 [] ⟨"image", [("name", "t1")], "s1"⟩ (by decide)

end Proxy

namespace Proxy

theorem find?_cons_key (kv : String × SessionProxies) (L : List (String × SessionProxies))
    (id : String) :
    List.find? (fun kv => kv.1 == id) (kv :: L)
      = if kv.1 = id then some kv else List.find? (fun kv => kv.1 == id) L := by
  by_cases h : kv.1 = id <;> simp [List.find?_cons, h]

theorem lookup_filter_ne (m : Sessions) (i id : String) :
    sessionsLookup (m.filter (fun kv => !(kv.1 == i))) id
      = if i = id then none else sessionsLookup m id := by
  induction m with
  | nil => by_cases h : i = id <;> simp [sessionsLookup, h]
  | cons kv rest ih =>
    have hfc : (kv :: rest).filter (fun kv => !(kv.1 == i))
        = if kv.1 = i then rest.filter (fun kv => !(kv.1 == i))
          else kv :: rest.filter (fun kv => !(kv.1 == i)) := by
      by_cases h : kv.1 = i <;> simp [List.filter_cons, h]
    rw [hfc]
    by_cases hki : kv.1 = i
    · rw [if_pos hki, ih]
      by_cases hid : i = id
      · rw [if_pos hid, if_pos hid]
      · rw [if_neg hid, if_neg hid]
        unfold sessionsLookup
        rw [find?_cons_key, if_neg (show ¬ kv.1 = id from fun h => hid (by rw [← hki, h]))]
    · rw [if_neg hki]
      unfold sessionsLookup at ih ⊢
      rw [find?_cons_key]
      by_cases hkid : kv.1 = id
      · have hid : ¬ i = id := fun h => hki (by rw [hkid, h])
        rw [if_pos hkid, find?_cons_key, if_pos hkid, if_neg hid]
      · rw [if_neg hkid, find?_cons_key, if_neg hkid]
        exact ih

theorem isSome_map_sp (o : Option SessionProxies) (f : SessionProxies → SessionProxies) :
    (o.map f).isSome = o.isSome := by
  cases o <;> rfl

theorem step_membership (ev : ProxyEvent) (st : ProxyState) (id : String) :
    (sessionsLookup (stepEvent st ev).sessions id).isSome
      = (if removesEntry id ev = true then false
         else (sessionsLookup st.sessions id).isSome || createsEntry id ev) := by
  cases ev with
  | solve req =>
    have hrm : removesEntry id (ProxyEvent.solve req) = false := rfl
    rw [hrm, if_neg Bool.false_ne_true]
    show (sessionsLookup (solveStep st.sessions req) id).isSome
        = ((sessionsLookup st.sessions id).isSome || (req.session == id && solveHijackCond req))
    by_cases hc : solveHijackCond req = true
    · unfold solveStep addLocalExporter
      rw [if_pos hc, lookup_setSessionAttrs, isSome_map_sp, isSome_lookup_getSession]
      simp [hc]
    · have hc' : solveHijackCond req = false := by simpa using hc
      unfold solveStep
      rw [if_neg (by simp [hc'])]
      simp [hc']
  | sessionStart i =>
    have hrm : removesEntry id (ProxyEvent.sessionStart i) = false := rfl
    rw [hrm, if_neg Bool.false_ne_true]
    show (sessionsLookup (getSession st.sessions i).1 id).isSome
        = ((sessionsLookup st.sessions id).isSome || (i == id))
    exact isSome_lookup_getSession st.sessions i id
  | sessionAbort i =>
    have hrm : removesEntry id (ProxyEvent.sessionAbort i) = false := rfl
    rw [hrm, if_neg Bool.false_ne_true]
    show (sessionsLookup st.sessions id).isSome
        = ((sessionsLookup st.sessions id).isSome || createsEntry id (ProxyEvent.sessionAbort i))
    simp [createsEntry]
  | sessionReturn i =>
    have hlk := lookup_filter_ne st.sessions i id
    by_cases hid : i = id
    · have hrm : removesEntry id (ProxyEvent.sessionReturn i) = true := by
        simp [removesEntry, hid]
      rw [hrm, if_pos rfl]
      show (sessionsLookup (st.sessions.filter (fun kv => !(kv.1 == i))) id).isSome = false
      rw [hlk, if_pos hid]
      rfl
    · have hrm : removesEntry id (ProxyEvent.sessionReturn i) = false := by
        simp [removesEntry, hid]
      rw [hrm, if_neg Bool.false_ne_true]
      show (sessionsLookup (st.sessions.filter (fun kv => !(kv.1 == i))) id).isSome
          = ((sessionsLookup st.sessions id).isSome || createsEntry id (ProxyEvent.sessionReturn i))
      rw [hlk, if_neg hid]
      simp [createsEntry]
  | hijackCheck i =>
    have hrm : removesEntry id (ProxyEvent.hijackCheck i) = false := rfl
    rw [hrm, if_neg Bool.false_ne_true]
    show (sessionsLookup (getSession st.sessions i).1 id).isSome
        = ((sessionsLookup st.sessions id).isSome || (i == id))
    exact isSome_lookup_getSession st.sessions i id

theorem runTrace_membership (tr : List ProxyEvent) :
    ∀ (st : ProxyState) (id : String),
      (sessionsLookup (runTrace st tr).sessions id).isSome
        = tr.foldl (fun b ev => if removesEntry id ev = true then false else b || createsEntry id ev)
            ((sessionsLookup st.sessions id).isSome) := by
  induction tr with
  | nil => intro st id; rfl
  | cons ev rest ih =>
    intro st id
    have h1 : runTrace st (ev :: rest) = runTrace (stepEvent st ev) rest := rfl
    rw [h1, ih (stepEvent st ev) id, List.foldl_cons, step_membership]

/-- C5 counterexample, two ways: (a) a single Solve request with an image
exporter and non-empty attributes creates a session-map entry while no
Session RPC is ever in flight; (b) a Session RPC that performs its initial
getSession and then returns through a setup error path (e.g. the buildkitd
Session dial fails) leaves its entry in the map although the RPC has
returned.  Both refute "an entry exists iff the Session RPC for that ID is
in flight". -/
theorem sessionMap_entry_without_inflight :
    ((sessionsLookup
        (runTrace initState [ProxyEvent.solve ⟨"image", [("k", "v")], "s1"⟩]).sessions
        "s1").isSome = true) ∧
    "s1" ∉ (runTrace initState [ProxyEvent.solve ⟨"image", [("k", "v")], "s1"⟩]).inFlight ∧
    ((sessionsLookup
        (runTrace initState [ProxyEvent.sessionStart "s2", ProxyEvent.sessionAbort "s2"]).sessions
        "s2").isSome = true) ∧
    "s2" ∉ (runTrace initState
        [ProxyEvent.sessionStart "s2", ProxyEvent.sessionAbort "s2"]).inFlight := by
  refine ⟨rfl, by decide, rfl, by decide⟩

/-- C5 amended: a session-map entry for an ID exists iff an entry-creating
operation for that ID (a Solve declaring an image/docker/oci exporter with
non-empty attributes, the Session RPC's initial lookup, or a hijack check)
has occurred since the most recent completed Session-RPC return for that ID -
the `delete(s.sessions, sessionID)` on the final path of `server.Session`.
Entries are removed only by that delete; a Session RPC that fails during
setup after its initial lookup returns without deleting, so an entry can
exist while no Session RPC is in flight (and can outlive a failed one). -/
theorem sessionMap_membership_spec (tr : List ProxyEvent) (id : String) :
    (sessionsLookup (runTrace initState tr).sessions id).isSome = specHasEntry id tr := by
  rw [runTrace_membership]
  rfl

/-- C6: the peer-replication Load streaming RPC loads bytes into the local
image-load routine only when the request metadata carries exactly one "key"
value equal to this node's listen key - in every other case it returns an
error having loaded nothing - and on success the bytes go to the image-load
routine selected by the configured runtime socket (containerd when a
containerd socket path is configured, docker-compatible otherwise). -/
theorem loadRPC_requires_listen_key :
    (∀ (cfg : ServerConfig) (key : String) (md : List String) (data : List Nat),
      (∃ t d, loadRPC cfg key md data = LoadOutcome.loaded t d) ↔ md = [key]) ∧
    (∀ (cfg : ServerConfig) (key : String) (data : List Nat),
      loadRPC cfg key [key] data = LoadOutcome.loaded (runtimeTarget cfg) data) ∧
    (∀ cfg : ServerConfig, runtimeTarget cfg
      = if cfg.containerdSocketPath ≠ "" then LoadTarget.containerd else LoadTarget.dockerd) := by
  refine ⟨?_, ?_, fun _ => rfl⟩
  · intro cfg key md data
    constructor
    · rintro ⟨t, d, h⟩
      match md with
      | [] => exact absurd h (by simp [loadRPC])
      | [k] =>
        by_cases hk : k = key
        · rw [hk]
        · rw [loadRPC, if_pos hk] at h
          exact absurd h (by simp)
      | a :: b :: rest => exact absurd h (by simp [loadRPC])
    · rintro rfl
      exact ⟨runtimeTarget cfg, data, by simp [loadRPC]⟩
  · intro cfg key data
    simp [loadRPC]

/-- C10: StopListen at zero refcount errors and leaves the state untouched;
at positive refcount it decrements and stops the TCP gRPC listener exactly
when the count reaches zero; Listen starts the listener only on the
zero-to-one transition and always returns the node's listen key (unless
net.Listen itself fails, in which case nothing is mutated). -/
theorem listen_stopListen_refcount :
    (∀ st : ReplicationState, st.listenRefCount = 0 →
      stopListen st = (st, some "internal error - zero refcount on StopListen")) ∧
    (∀ st : ReplicationState, st.listenRefCount ≠ 0 →
      stopListen st =
        ({ st with listenRefCount := st.listenRefCount - 1,
                   listening := if st.listenRefCount - 1 = 0 then false else st.listening },
         none)) ∧
    (∀ (ok : Bool) (st : ReplicationState), st.listenRefCount ≠ 0 →
      listen ok st = ({ st with listenRefCount := st.listenRefCount + 1 }, .ok st.listenKey)) ∧
    (∀ st : ReplicationState, st.listenRefCount = 0 →
      listen true st = ({ st with listening := true, listenRefCount := 1 }, .ok st.listenKey)) ∧
    (∀ st : ReplicationState, st.listenRefCount = 0 →
      listen false st = (st, .error "failed to start gRPC listener on port")) := by
  refine ⟨?_, ?_, ?_, ?_, ?_⟩
  · intro st h
    rw [stopListen, if_pos h]
  · intro st h
    rw [stopListen, if_neg h]
    by_cases hc : st.listenRefCount - 1 = 0
    · simp [hc]
    · simp [hc]
  · intro ok st h
    rw [listen, if_neg h]
  · intro st h
    rw [listen, if_pos h, if_pos rfl]
    simp [h]
  · intro st h
    rw [listen, if_pos h]
    rfl

/-- Witness for the C10 theorem at concrete states: refcount 0 rejects and is
unchanged; refcount 1 decrements to 0 and stops the listener; Listen at
refcount 0 starts the listener and returns the key. -/
theorem listen_stopListen_refcount_witness :
    stopListen ⟨"lk", 0, false, []⟩
      = (⟨"lk", 0, false, []⟩, some "internal error - zero refcount on StopListen") ∧
    stopListen ⟨"lk", 1, true, []⟩ = (⟨"lk", 0, false, []⟩, none) ∧
    listen true ⟨"lk", 0, false, []⟩ = (⟨"lk", 1, true, []⟩, .ok "lk") := by
  refine ⟨listen_stopListen_refcount.1 _ rfl, ?_, ?_⟩
  · have h := listen_stopListen_refcount.2.1 ⟨"lk", 1, true, []⟩ (by decide)
    simpa using h
  · have h := listen_stopListen_refcount.2.2.2.1 ⟨"lk", 0, false, []⟩ rfl
    simpa using h

end Proxy

namespace KubeDriver

/-- C9 counterexample: `RandSleep(1000)` as used by the configuration-object
and workload create/update retries can draw 0 and sleep 0 ms, below the 25 ms
lower bound the claim states. -/
theorem randSleep_can_drop_below_25ms :
    RandSleepDuration lifecycleRetrySleepMaxMS (some 0) = 0 ∧
    0 < lifecycleRetrySleepMaxMS ∧
    ¬ (25 ≤ RandSleepDuration lifecycleRetrySleepMaxMS (some 0)) := by
  refine ⟨rfl, by decide, by decide⟩

/-- C9 amended: every jittered retry sleep in the configuration-object and
workload create/update retry paths lasts at most 1000 ms - strictly less than
1000 ms for a successful random draw (which lies in [0, 1000)), and exactly
1000 ms when the random source fails - and there is no positive lower bound:
the duration can be as low as 0 ms. -/
theorem randSleep_bounds (draw : Option Nat)
    (h : ∀ d, draw = some d → d < lifecycleRetrySleepMaxMS) :
    RandSleepDuration lifecycleRetrySleepMaxMS draw ≤ lifecycleRetrySleepMaxMS ∧
    (draw.isSome = true →
      RandSleepDuration lifecycleRetrySleepMaxMS draw < lifecycleRetrySleepMaxMS) := by
  cases draw with
  | none =>
    exact ⟨Nat.le_refl _, by intro hs; simp at hs⟩
  | some d =>
    have hd : d < lifecycleRetrySleepMaxMS := h d rfl
    exact ⟨Nat.le_of_lt hd, fun _ => hd⟩

/-- Witness for the C9 amended theorem at the concrete draw 7. -/
theorem randSleep_bounds_witness :
    RandSleepDuration lifecycleRetrySleepMaxMS (some 7) ≤ lifecycleRetrySleepMaxMS :=
  (randSleep_bounds (some 7) (by intro d hd; injection hd with h2; subst h2; decide)).1

end KubeDriver

namespace KubeDriver

theorem init_flip_ok (o : DriverOpts) (hro : rootlessOk o = true) :
    initDriverFromConfig { o with runtime := some "containerd", worker := some "auto" }
      = .ok (⟨"containerd", "containerd", false⟩, true) := by
  unfold initDriverFromConfig
  unfold rootlessOk at hro
  cases hrl : o.rootless with
  | none => rfl
  | some v =>
    rw [hrl] at hro
    have hv : GoPrim.parseBool v = some false := by simpa using hro
    simp [hv]

theorem init_flip_err (o : DriverOpts) (h : rootlessOk o = false) :
    ∃ m, initDriverFromConfig { o with runtime := some "containerd", worker := some "auto" }
      = .error m := by
  unfold rootlessOk at h
  cases hrl : o.rootless with
  | none =>
    rw [hrl] at h
    simp at h
  | some v =>
    rw [hrl] at h
    have h2 : (GoPrim.parseBool v == some false) = false := by simpa using h
    cases hpv : GoPrim.parseBool v with
    | none =>
      refine ⟨"invalid rootless value \"" ++ v ++ "\"", ?_⟩
      unfold initDriverFromConfig
      simp [hrl, hpv]
    | some b =>
      cases b with
      | false =>
        rw [hpv] at h2
        simp at h2
      | true =>
        refine ⟨"containerd worker does not support rootless mode - use 'runc' worker", ?_⟩
        unfold initDriverFromConfig
        simp [hrl, hpv]

/-- C4: during Bootstrap convergence, a pod event whose message contains
"is not a socket file" is surfaced as an error when the runtime choice was
user-pinned; otherwise the driver flips the runtime away from the default
(docker becomes containerd), resets the worker selection to "auto", re-runs
configuration initialization (which pins the runtime), updates the workload
with the previously observed resource version, deletes the stale replica set
and the affected pods with zero grace period, and continues waiting; and the
flip happens at most once - any later mount failure after a flip is fatal.
The no-flip conjunct carries a `rootlessOk` hypothesis: a runtime-socket
mount failure cannot occur for a rootless builder, which mounts no runtime
socket. -/
theorem mountFailure_flip_behavior :
    (∀ (st : DriverState) (rv : String) (ev : PodEvent),
      isMountFailure ev = true → st.userSpecifiedRuntime = true →
      handlePodEvent st rv ev
        = .fatal ("pod failed to initialize - did you pick the correct runtime? - "
            ++ ev.message)) ∧
    (∀ (st : DriverState) (rv : String) (ev : PodEvent),
      isMountFailure ev = true → st.userSpecifiedRuntime = false →
      rootlessOk st.driverOpts = true →
      handlePodEvent st rv ev
        = .flipped
            { driverOpts :=
                { st.driverOpts with runtime := some "containerd", worker := some "auto" },
              userSpecifiedRuntime := true }
            "containerd"
            { updateResourceVersion := rv, replicaSetDeleteGraceZero := true,
              podsForceDeletedGraceZero := true }) ∧
    (∀ (st : DriverState) (rv : String) (ev : PodEvent),
      isMountFailure ev = false → handlePodEvent st rv ev = .noAction) ∧
    (∀ (st st2 : DriverState) (rv rv2 : String) (ev ev2 : PodEvent) (nr : String)
        (acts : FlipActions),
      handlePodEvent st rv ev = .flipped st2 nr acts → isMountFailure ev2 = true →
      handlePodEvent st2 rv2 ev2
        = .fatal ("pod failed to initialize - did you pick the correct runtime? - "
            ++ ev2.message)) := by
  have hfatal : ∀ (st : DriverState) (rv : String) (ev : PodEvent),
      isMountFailure ev = true → st.userSpecifiedRuntime = true →
      handlePodEvent st rv ev
        = .fatal ("pod failed to initialize - did you pick the correct runtime? - "
            ++ ev.message) := by
    intro st rv ev h1 h2
    unfold handlePodEvent
    rw [if_pos h1, if_pos h2]
  refine ⟨hfatal, ?_, ?_, ?_⟩
  · intro st rv ev h1 h2 h3
    unfold handlePodEvent
    rw [if_pos h1, if_neg (by simp [h2])]
    show (match initDriverFromConfig
            { st.driverOpts with runtime := some "containerd", worker := some "auto" } with
      | Except.error m => MountFixOutcome.fatal m
      | Except.ok p =>
        MountFixOutcome.flipped
          { driverOpts :=
              { st.driverOpts with runtime := some "containerd", worker := some "auto" },
            userSpecifiedRuntime := p.2 } "containerd"
          { updateResourceVersion := rv, replicaSetDeleteGraceZero := true,
            podsForceDeletedGraceZero := true }) = _
    rw [init_flip_ok st.driverOpts h3]
  · intro st rv ev h1
    unfold handlePodEvent
    rw [if_neg (by simp [h1])]
  · intro st st2 rv rv2 ev ev2 nr acts hflip h2
    have husr : st2.userSpecifiedRuntime = true := by
      unfold handlePodEvent at hflip
      by_cases h1 : isMountFailure ev = true
      · rw [if_pos h1] at hflip
        by_cases hu : st.userSpecifiedRuntime = true
        · rw [if_pos hu] at hflip
          exact absurd hflip (by simp)
        · rw [if_neg hu] at hflip
          have hflip2 : (match initDriverFromConfig
                { st.driverOpts with runtime := some "containerd", worker := some "auto" } with
            | Except.error m => MountFixOutcome.fatal m
            | Except.ok p =>
              MountFixOutcome.flipped
                { driverOpts :=
                    { st.driverOpts with runtime := some "containerd", worker := some "auto" },
                  userSpecifiedRuntime := p.2 } "containerd"
                { updateResourceVersion := rv, replicaSetDeleteGraceZero := true,
                  podsForceDeletedGraceZero := true })
              = MountFixOutcome.flipped st2 nr acts := hflip
          by_cases hro : rootlessOk st.driverOpts = true
          · rw [init_flip_ok st.driverOpts hro] at hflip2
            injection hflip2 with hst hnr hacts
            rw [← hst]
          · obtain ⟨m, hm⟩ := init_flip_err st.driverOpts (by simpa using hro)
            rw [hm] at hflip2
            exact absurd hflip2 (by simp)
      · rw [if_neg h1] at hflip
        exact absurd hflip (by simp)
    exact hfatal st2 rv2 ev2 h2 husr

/-- Witness for the C4 theorem: an unpinned driver seeing a FailedMount event
with "is not a socket file" flips docker to containerd, resets the worker to
auto, and pins the runtime; a second such event on the flipped state is fatal. -/
theorem mountFailure_flip_behavior_witness :
    handlePodEvent ⟨⟨none, none, none⟩, false⟩ "rv42"
        ⟨"FailedMount", "/var/run/docker.sock is not a socket file"⟩
      = MountFixOutcome.flipped ⟨⟨some "containerd", some "auto", none⟩, true⟩ "containerd"
          ⟨"rv42", true, true⟩ ∧
    handlePodEvent ⟨⟨some "containerd", some "auto", none⟩, true⟩ "rv43"
        ⟨"FailedMount", "/var/run/docker.sock is not a socket file"⟩
      = MountFixOutcome.fatal
          ("pod failed to initialize - did you pick the correct runtime? - "
            ++ "/var/run/docker.sock is not a socket file") := by
  constructor
  · exact mountFailure_flip_behavior.2.1 ⟨⟨none, none, none⟩, false⟩ "rv42"
      ⟨"FailedMount", "/var/run/docker.sock is not a socket file"⟩ (by decide) rfl (by decide)
  · exact mountFailure_flip_behavior.1 ⟨⟨some "containerd", some "auto", none⟩, true⟩ "rv43"
      ⟨"FailedMount", "/var/run/docker.sock is not a socket file"⟩ (by decide) rfl

end KubeDriver

namespace Build

theorem rewriteRuntimeExport_skip (feat : Features) (e : ExportEntry)
    (h : (e.typ == "runtime") = false) : rewriteRuntimeExport feat e = .ok e := by
  unfold rewriteRuntimeExport
  rw [h]
  rfl

theorem setupExporter_localtar_err (feat : Features) (br : Except String (List Nat))
    (dl : Bool) (idf : String) (e : ExportEntry)
    (htyp : e.typ = "local" ∨ e.typ = "tar") (hidf : idf ≠ "") :
    setupExporter feat br dl idf e
      = .error "local and tar exporters are incompatible with image ID file" := by
  have hcond : ((e.typ == "local") = true ∨ (e.typ == "tar") = true) ∧ idf ≠ "" := by
    refine ⟨?_, hidf⟩
    rcases htyp with h | h
    · exact Or.inl (by rw [h]; rfl)
    · exact Or.inr (by rw [h]; rfl)
  simp only [setupExporter]
  rw [if_pos hcond]

/-- C7: solve-option construction rejects zero outputs, rejects more than one
output, rejects an image export with push enabled but no tag with the error
"tag is needed when pushing to registry", rejects an image-ID file combined
with a local or tar output, and rejects an image-ID file combined with
multi-driver mode or a non-empty platform list (the latter two with the
specific multiple-platforms message). -/
theorem toSolveOpt_rejections :
    (∀ (feat : Features) (pt : String → Option String) (br : Except String (List Nat))
        (dl md : Bool) (opt : Options), opt.exports = [] →
      ∃ msg, toSolveOpt feat pt br dl md opt = Except.error msg) ∧
    (∀ (feat : Features) (pt : String → Option String) (br : Except String (List Nat))
        (dl md : Bool) (opt : Options) (e1 e2 : ExportEntry) (rest : List ExportEntry),
      opt.exports = e1 :: e2 :: rest →
      ∃ msg, toSolveOpt feat pt br dl md opt = Except.error msg) ∧
    (∀ (feat : Features) (pt : String → Option String) (br : Except String (List Nat))
        (dl md : Bool) (opt : Options) (e : ExportEntry),
      opt.exports = [e] → e.typ = "image" →
      GoPrim.mapGet e.attrs "name" = "" →
      GoPrim.mapGet e.attrs "push" ≠ "" →
      GoPrim.parseBoolLax (GoPrim.mapGet e.attrs "push") = true →
      opt.tags = [] → opt.imageIDFile = "" → opt.cacheTo = [] →
      GoPrim.parseBoolLax (GoPrim.mapGet opt.buildArgs "BUILDKIT_INLINE_CACHE") = false →
      toSolveOpt feat pt br dl md opt = Except.error "tag is needed when pushing to registry") ∧
    (∀ (feat : Features) (pt : String → Option String) (br : Except String (List Nat))
        (dl md : Bool) (opt : Options) (e : ExportEntry),
      opt.exports = [e] → (e.typ = "local" ∨ e.typ = "tar") → opt.imageIDFile ≠ "" →
      ∃ msg, toSolveOpt feat pt br dl md opt = Except.error msg) ∧
    (∀ (feat : Features) (pt : String → Option String) (br : Except String (List Nat))
        (dl md : Bool) (opt : Options),
      opt.imageIDFile ≠ "" → (md = true ∨ opt.platforms ≠ []) →
      toSolveOpt feat pt br dl md opt
        = Except.error "image ID file cannot be specified when building for multiple platforms") := by
  refine ⟨?_, ?_, ?_, ?_, ?_⟩
  · intro feat pt br dl md opt h
    unfold toSolveOpt
    rw [h]
    by_cases hA : opt.imageIDFile ≠ "" ∧ (md = true ∨ opt.platforms ≠ [])
    · rw [if_pos hA]
      exact ⟨_, rfl⟩
    · rw [if_neg hA]
      by_cases hB : ((effectiveCacheTo opt).any
          (fun c => c.typ != "inline" && !feat.cacheExport)) = true
      · rw [if_pos hB]
        exact ⟨_, rfl⟩
      · rw [if_neg hB]
        exact ⟨_, rfl⟩
  · intro feat pt br dl md opt e1 e2 rest h
    unfold toSolveOpt
    rw [h]
    by_cases hA : opt.imageIDFile ≠ "" ∧ (md = true ∨ opt.platforms ≠ [])
    · rw [if_pos hA]
      exact ⟨_, rfl⟩
    · rw [if_neg hA]
      by_cases hB : ((effectiveCacheTo opt).any
          (fun c => c.typ != "inline" && !feat.cacheExport)) = true
      · rw [if_pos hB]
        exact ⟨_, rfl⟩
      · rw [if_neg hB]
        exact ⟨_, rfl⟩
  · intro feat pt br dl md opt e hexp htyp hname hpushne hpush htags hidf hcache hinline
    unfold toSolveOpt
    rw [hexp, hidf, htags]
    rw [if_neg (by simp)]
    have hect : effectiveCacheTo opt = [] := by
      unfold effectiveCacheTo
      rw [hinline, hcache]
      simp
    rw [hect]
    rw [if_neg (by simp)]
    have hrw : rewriteRuntimeExport feat e = .ok e :=
      rewriteRuntimeExport_skip feat e (by rw [htyp]; rfl)
    simp only [hrw]
    have hfill : fillTagNames pt [] e = .error "tag is needed when pushing to registry" := by
      simp only [fillTagNames]
      rw [if_pos ⟨by rw [htyp]; rfl, hname, hpushne⟩, if_pos hpush]
    simp only [hfill]
  · intro feat pt br dl md opt e hexp htyp hidf
    unfold toSolveOpt
    rw [hexp]
    by_cases hA : opt.imageIDFile ≠ "" ∧ (md = true ∨ opt.platforms ≠ [])
    · rw [if_pos hA]
      exact ⟨_, rfl⟩
    · rw [if_neg hA]
      by_cases hB : ((effectiveCacheTo opt).any
          (fun c => c.typ != "inline" && !feat.cacheExport)) = true
      · rw [if_pos hB]
        exact ⟨_, rfl⟩
      · rw [if_neg hB]
        have hrw : rewriteRuntimeExport feat e = .ok e := by
          refine rewriteRuntimeExport_skip feat e ?_
          rcases htyp with h | h <;> rw [h] <;> rfl
        simp only [hrw]
        have hse := setupExporter_localtar_err feat br dl opt.imageIDFile e htyp hidf
        cases htg : opt.tags with
        | nil =>
          have hfill : fillTagNames pt [] e = .ok e := by
            simp only [fillTagNames]
            rw [if_neg (fun hc => by
              have h1 := hc.1
              rcases htyp with h | h <;> simp [h] at h1)]
          simp only [hfill, hse]
          exact ⟨_, rfl⟩
        | cons t ts =>
          cases hpt : parseTags pt (t :: ts) with
          | error m =>
            have hfill : fillTagNames pt (t :: ts) e = .error m := by
              simp only [fillTagNames]
              simp only [hpt]
            simp only [hfill]
            exact ⟨m, rfl⟩
          | ok rs =>
            have hfill : fillTagNames pt (t :: ts) e = .ok e := by
              simp only [fillTagNames]
              simp only [hpt]
              rw [if_neg (fun hc => by
                rcases hc with hc | hc | hc <;> rcases htyp with h | h <;> simp [h] at hc)]
            simp only [hfill, hse]
            exact ⟨_, rfl⟩
  · intro feat pt br dl md opt h1 h2
    unfold toSolveOpt
    rw [if_pos ⟨h1, h2⟩]

/-- Witness for the C7 theorem: a single image export with push=true, no tag,
and no image-ID file is rejected with the push-needs-tag message; an image-ID
file with a non-empty platform list is rejected with the multiple-platforms
message. -/
theorem toSolveOpt_rejections_witness :
    toSolveOpt ⟨true, true, true, true, true⟩ (fun t => some t) (Except.ok [1]) true false
      { tags := [], buildArgs := [], imageIDFile := "", platforms := [],
        exports := [{ typ := "image", attrs := [("push", "true")], hasOutput := false }],
        cacheTo := [] }
      = Except.error "tag is needed when pushing to registry" ∧
    toSolveOpt ⟨true, true, true, true, true⟩ (fun t => some t) (Except.ok [1]) true false
      { tags := [], buildArgs := [], imageIDFile := "id.txt", platforms := ["linux/amd64"],
        exports := [{ typ := "image", attrs := [], hasOutput := false }], cacheTo := [] }
      = Except.error "image ID file cannot be specified when building for multiple platforms" := by
  constructor
  · exact toSolveOpt_rejections.2.2.1 ⟨true, true, true, true, true⟩ (fun t => some t)
      (Except.ok [1]) true false _ _ rfl rfl (by decide) (by decide) (by decide) rfl rfl rfl
      (by decide)
  · exact toSolveOpt_rejections.2.2.2.2 ⟨true, true, true, true, true⟩ (fun t => some t)
      (Except.ok [1]) true false _ (by decide) (Or.inr (by decide))

end Build

namespace AuthProv

theorem b64Index_b64Char : ∀ n, n < 64 → b64Index (b64Char n) = some n := by decide

theorem b64Char_ne_eq : ∀ n, n < 64 → ¬ (b64Char n = '=') := by decide

theorem b64Encode_length : ∀ bs : List Nat, (b64Encode bs).length = ((bs.length + 2) / 3) * 4
  | [] => by simp [b64Encode]
  | [a] => by simp [b64Encode]
  | [a, b] => by simp [b64Encode]
  | a :: b :: c :: rest => by
    have ih := b64Encode_length rest
    simp only [b64Encode, List.length_cons, ih]
    omega

theorem b64_roundtrip : ∀ bs : List Nat, (∀ x ∈ bs, x < 256) →
    b64Decode (b64Encode bs) = .ok bs
  | [], _ => rfl
  | [a], h => by
    have ha : a < 256 := h a (by simp)
    have h1 : a / 4 < 64 := by omega
    have h2 : a % 4 * 16 < 64 := by omega
    simp only [b64Encode, b64Decode, b64Index_b64Char _ h1, b64Index_b64Char _ h2]
    simp only [and_self, if_true]
    have e1 : a / 4 * 4 + a % 4 * 16 / 16 = a := by omega
    rw [e1]
  | [a, b], h => by
    have ha : a < 256 := h a (by simp)
    have hb : b < 256 := h b (by simp)
    have h1 : a / 4 < 64 := by omega
    have h2 : a % 4 * 16 + b / 16 < 64 := by omega
    have h3 : b % 16 * 4 < 64 := by omega
    simp only [b64Encode, b64Decode, b64Index_b64Char _ h1, b64Index_b64Char _ h2]
    rw [if_neg (b64Char_ne_eq _ h3)]
    simp only [b64Index_b64Char _ h3]
    simp only [if_true]
    have e1 : a / 4 * 4 + (a % 4 * 16 + b / 16) / 16 = a := by omega
    have e2 : (a % 4 * 16 + b / 16) % 16 * 16 + b % 16 * 4 / 4 = b := by omega
    rw [e1, e2]
  | a :: b :: c :: rest, h => by
    have ha : a < 256 := h a (by simp)
    have hb : b < 256 := h b (by simp)
    have hc : c < 256 := h c (by simp)
    have h1 : a / 4 < 64 := by omega
    have h2 : a % 4 * 16 + b / 16 < 64 := by omega
    have h3 : b % 16 * 4 + c / 64 < 64 := by omega
    have h4 : c % 64 < 64 := by omega
    have ih := b64_roundtrip rest (fun x hx => h x (by simp [hx]))
    simp only [b64Encode, b64Decode, b64Index_b64Char _ h1, b64Index_b64Char _ h2]
    rw [if_neg (b64Char_ne_eq _ h3)]
    simp only [b64Index_b64Char _ h3]
    rw [if_neg (b64Char_ne_eq _ h4)]
    simp only [b64Index_b64Char _ h4, ih]
    have e1 : a / 4 * 4 + (a % 4 * 16 + b / 16) / 16 = a := by omega
    have e2 : (a % 4 * 16 + b / 16) % 16 * 16 + (b % 16 * 4 + c / 64) / 4 = b := by omega
    have e3 : (b % 16 * 4 + c / 64) % 4 * 64 + c % 64 = c := by omega
    rw [e1, e2, e3]

theorem splitOnceColon_append (u rest : List Nat) (h : ¬ 58 ∈ u) :
    splitOnceColon (u ++ 58 :: rest) = some (u, rest) := by
  induction u with
  | nil => simp [splitOnceColon]
  | cons x xs ih =>
    have hx : ¬ x = 58 := fun hh => h (by rw [hh]; exact List.mem_cons_self _ _)
    have hxs : ¬ 58 ∈ xs := fun hh => h (List.mem_cons_of_mem _ hh)
    simp only [List.cons_append, splitOnceColon]
    rw [if_neg (by simpa using hx)]
    simp [ih hxs]

theorem dropWhile_zero_replicate (k : Nat) (l : List Nat) :
    List.dropWhile (fun x => x == 0) (List.replicate k 0 ++ l)
      = List.dropWhile (fun x => x == 0) l := by
  induction k with
  | zero => rfl
  | succ n ih =>
    rw [List.replicate_succ, List.cons_append, List.dropWhile_cons]
    simp [ih]

theorem trimTrailingNul_append_zeros (p : List Nat) (k : Nat) :
    trimTrailingNul (p ++ List.replicate k 0) = trimTrailingNul p := by
  unfold trimTrailingNul
  rw [List.reverse_append, List.reverse_replicate, dropWhile_zero_replicate]

theorem trimNulBoth_append_zeros (p : List Nat) (k : Nat) :
    trimNulBoth (p ++ List.replicate k 0) = trimNulBoth p := by
  unfold trimNulBoth
  rw [trimTrailingNul_append_zeros]

/-- C8 counterexample: for username "u" (byte 117) and password "\x00p"
(bytes 0, 112), decodeAuth of the documented encoding returns password "p" -
the leading NUL byte is stripped as well, because the source uses
strings.Trim, which trims both ends - while the claim demands exactly the
password with only trailing NUL bytes stripped, i.e. "\x00p". -/
theorem decodeAuth_strips_leading_nul :
    decodeAuth (encodeDockerAuth [117] [0, 112]) = .ok ([117], [112]) ∧
    trimTrailingNul [0, 112] = [0, 112] ∧
    ([112] : List Nat) ≠ [0, 112] := by
  refine ⟨by rfl, by decide, by decide⟩

/-- C8 amended: for every username without a colon and every password,
decodeAuth applied to the standard base64 encoding of username ":" password
succeeds and returns exactly that username together with that password with
leading and trailing NUL bytes stripped (strings.Trim trims both ends, so the
buffer's zero padding and the password's own edge NULs go together); and the
decode path is taken in Credentials exactly when the secret's username or
password is empty and its auth field is non-empty. -/
theorem decodeAuth_roundtrip :
    (∀ (u p : List Nat), (∀ x ∈ u, x < 256) → (∀ x ∈ p, x < 256) → ¬ 58 ∈ u →
      decodeAuth (encodeDockerAuth u p) = .ok (u, trimNulBoth p)) ∧
    (∀ c : Creds, decodePathTaken c = true ↔
      ((c.username = "" ∨ c.password = "") ∧ c.auth ≠ "")) := by
  constructor
  · intro u p hu hp hc
    have hrt : b64Decode (b64Encode (u ++ 58 :: p)) = .ok (u ++ 58 :: p) := by
      refine b64_roundtrip _ ?_
      intro x hx
      rcases List.mem_append.mp hx with h | h
      · exact hu x h
      · rcases List.mem_cons.mp h with h | h
        · omega
        · exact hp x h
    have henc_len : (b64Encode (u ++ 58 :: p)).length
        = (((u ++ 58 :: p).length + 2) / 3) * 4 := b64Encode_length _
    have hne : ¬ ((b64Encode (u ++ 58 :: p)).isEmpty = true) := by
      intro hh
      rw [List.isEmpty_iff] at hh
      have h0 : (b64Encode (u ++ 58 :: p)).length = 0 := by rw [hh]; rfl
      rw [henc_len, List.length_append, List.length_cons] at h0
      omega
    unfold encodeDockerAuth decodeAuth
    rw [if_neg hne]
    simp only [hrt]
    rw [henc_len]
    have hdec : (((u ++ 58 :: p).length + 2) / 3) * 4 / 4 * 3
        = (((u ++ 58 :: p).length + 2) / 3) * 3 := by omega
    rw [hdec]
    rw [if_neg (by omega : ¬ ((((u ++ 58 :: p).length + 2) / 3) * 3 < (u ++ 58 :: p).length))]
    rw [List.append_assoc, List.cons_append]
    simp only [splitOnceColon_append _ _ hc]
    rw [trimNulBoth_append_zeros]
  · intro c
    unfold decodePathTaken
    constructor
    · intro h
      rw [Bool.and_eq_true] at h
      obtain ⟨h1, h2⟩ := h
      refine ⟨?_, by simpa using h2⟩
      rcases Bool.or_eq_true_iff.mp h1 with h3 | h3
      · exact Or.inl (by simpa using h3)
      · exact Or.inr (by simpa using h3)
    · rintro ⟨h1, h2⟩
      have h2' : (c.auth != "") = true := by simpa using h2
      rcases h1 with h | h <;> simp [h, h2']

/-- Witness for the C8 amended theorem: username "jdoe" and password "secret"
round-trip through the documented encoding. -/
theorem decodeAuth_roundtrip_witness :
    decodeAuth (encodeDockerAuth [106, 100, 111, 101] [115, 101, 99, 114, 101, 116])
      = .ok ([106, 100, 111, 101], trimNulBoth [115, 101, 99, 114, 101, 116]) :=
  decodeAuth_roundtrip.1 [106, 100, 111, 101] [115, 101, 99, 114, 101, 116]
    (by decide) (by decide) (by decide)

end AuthProv
